import Mathlib

/-
  Verification of the Product Resolution & Pricing Engine of the elytPOS
  point-of-sale application.

  The development shallowly embeds the relevant parts of the program:
    - src/database.py : DatabaseManager.find_product_by_barcode,
      find_product_smart, get_product_uom_data, get_active_scheme_for_product,
      together with the table shapes created in init_db;
    - src/main.py : BillingPage.recalc_row, recalc_totals and the total
      computation of process_checkout.

  Prices and quantities are DECIMAL(12,3) columns and Python floats in the
  source; they are embedded as exact rationals.  Dates are embedded as
  integer day numbers.  The trigram similarity function of the pg_trgm
  extension is an external collaborator of the store and is a field of the
  database snapshot.
-/

namespace ElytPOS

/-- Row of the products table (init_db in src/database.py).  Fields follow
the column list id, name, barcode, mrp, price, category, base_uom,
is_deleted used by the queries under verification. -/
structure ProductRow where
  id : Nat
  name : String
  barcode : String
  mrp : ℚ
  price : ℚ
  category : String
  base_uom : String
  is_deleted : Bool
deriving DecidableEq

/-- Row of the product_aliases table. -/
structure AliasRow where
  id : Nat
  product_id : Nat
  barcode : String
  uom : String
  mrp : ℚ
  price : ℚ
  factor : ℚ
  qty : ℚ
deriving DecidableEq

/-- Row of the schemes table.  valid_from and valid_to are day numbers;
valid_to is NULLable. -/
structure SchemeRow where
  id : Nat
  name : String
  valid_from : Int
  valid_to : Option Int
  is_active : Bool
deriving DecidableEq

/-- Row of the scheme_products table.  The table has no target_mrp column:
its columns are scheme_id, product_id, min_qty, max_qty, target_uom,
benefit_type, benefit_value. -/
structure SchemeProductRow where
  scheme_id : Nat
  product_id : Nat
  min_qty : ℚ
  max_qty : Option ℚ
  target_uom : Option String
  benefit_type : String
  benefit_value : ℚ
deriving DecidableEq

/-- A catalog snapshot: the tables read by the engine plus the value of
CURRENT_DATE (as a day number) and the trigram similarity function of the
pg_trgm extension (an external collaborator, hence a parameter). -/
structure DB where
  products : List ProductRow
  aliases : List AliasRow
  schemes : List SchemeRow
  scheme_products : List SchemeProductRow
  today : Int
  sim : String → String → ℚ

/-- The 12-tuple returned by find_product_by_barcode / find_product_smart.
Field order follows the tuple comment in the source:
(id, name, barcode, mrp, price, category, uom, factor, is_alias, qty,
base_price, base_mrp). -/
structure PData where
  id : Nat
  name : String
  barcode : String
  mrp : ℚ
  price : ℚ
  category : String
  uom : String
  factor : ℚ
  is_alias : Bool
  qty : ℚ
  base_price : ℚ
  base_mrp : ℚ
deriving DecidableEq

/-- Product branch of the resolver tuples:
(p.id, p.name, p.barcode, p.mrp, p.price, p.category, p.base_uom,
 1.0, False, 1.0, p.price, p.mrp). -/
def productToPData (p : ProductRow) : PData :=
  ⟨p.id, p.name, p.barcode, p.mrp, p.price, p.category, p.base_uom,
   1, false, 1, p.price, p.mrp⟩

/-- Alias branch of the resolver tuples:
(p.id, p.name, a.barcode, a.mrp, a.price, p.category, a.uom, a.factor,
 True, a.qty, p.price, p.mrp). -/
def aliasToPData (a : AliasRow) (p : ProductRow) : PData :=
  ⟨p.id, p.name, a.barcode, a.mrp, a.price, p.category, a.uom, a.factor,
   true, a.qty, p.price, p.mrp⟩

/-- The product row joined to an alias row (JOIN products p ON
a.product_id = p.id; product ids are the SERIAL primary key). -/
def ownerOf (db : DB) (a : AliasRow) : Option ProductRow :=
  db.products.find? (fun p => p.id == a.product_id)

/-- DatabaseManager.find_product_by_barcode (src/database.py).  First the
products table is probed by exact barcode (excluding soft-deleted rows),
then product_aliases joined to its non-deleted owner. -/
def find_product_by_barcode (db : DB) (code : String) : Option PData :=
  match db.products.find? (fun p => p.barcode == code && !p.is_deleted) with
  | some p => some (productToPData p)
  | none =>
    match db.aliases.find? (fun a =>
        a.barcode == code &&
        (match ownerOf db a with
         | some p => !p.is_deleted
         | none => false)) with
    | some a => (ownerOf db a).map (fun p => aliasToPData a p)
    | none => none

/-- ASCII lowering of one character, the effect of Python str.lower and
SQL ILIKE folding on the ASCII catalog data in play. -/
def lowerChar (c : Char) : Char :=
  if 'A' ≤ c ∧ c ≤ 'Z' then Char.ofNat (c.toNat + 32) else c

/-- ASCII lowering of a string. -/
def lowerStr (s : String) : String := String.mk (s.data.map lowerChar)

/-- Kernel-friendly prefix test on character lists. -/
def isPrefixL : List Char → List Char → Bool
  | [], _ => true
  | _ :: _, [] => false
  | a :: as, b :: bs => a == b && isPrefixL as bs

/-- Kernel-friendly contiguous-sublist test on character lists. -/
def isInfixL (n : List Char) : List Char → Bool
  | [] => n.isEmpty
  | h :: t => isPrefixL n (h :: t) || isInfixL n t

/-- Case-insensitive containment, embedding the SQL pattern
name ILIKE %query% (the token itself carries no wildcard at the call
sites under verification). -/
def containsCI (hay needle : String) : Bool :=
  isInfixL (lowerStr needle).toList (lowerStr hay).toList

/-- SELECT ... WHERE name ILIKE query AND is_deleted = FALSE: exact
case-insensitive name match. -/
def exactNameLookup (db : DB) (q : String) : Option ProductRow :=
  db.products.find? (fun p => lowerStr p.name == lowerStr q && !p.is_deleted)

/-- Rows matched by name ILIKE %query% AND is_deleted = FALSE. -/
def substringMatches (db : DB) (q : String) : List ProductRow :=
  db.products.filter (fun p => containsCI p.name q && !p.is_deleted)

/-- ORDER BY name LIMIT 1 over a row list (earliest row wins a full tie,
standing in for the unspecified SQL tie order). -/
def pickMinByName : List ProductRow → Option ProductRow
  | [] => none
  | x :: xs =>
    match pickMinByName xs with
    | none => some x
    | some y => if y.name < x.name then some y else some x

/-- Substring tier of find_product_smart. -/
def substringNameLookup (db : DB) (q : String) : Option ProductRow :=
  pickMinByName (substringMatches db q)

/-- ORDER BY score DESC LIMIT 1 over a candidate list (earliest row wins
a tie, standing in for the unspecified SQL tie order). -/
def pickMaxBy {α : Type} (score : α → ℚ) : List α → Option α
  | [] => none
  | x :: xs =>
    match pickMaxBy score xs with
    | none => some x
    | some y => if score x < score y then some y else some x

/-- Fuzzy product candidates: WHERE (similarity(name, q) > 0.3 OR
similarity(barcode, q) > 0.3) AND is_deleted = FALSE. -/
def productFuzzyCands (db : DB) (q : String) : List ProductRow :=
  db.products.filter (fun p =>
    (decide ((3 : ℚ)/10 < db.sim p.name q) ||
     decide ((3 : ℚ)/10 < db.sim p.barcode q)) && !p.is_deleted)

/-- GREATEST(similarity(name, q), similarity(barcode, q)). -/
def pScore (db : DB) (q : String) (p : ProductRow) : ℚ :=
  max (db.sim p.name q) (db.sim p.barcode q)

/-- Fuzzy product pick: ORDER BY sim DESC LIMIT 1. -/
def productFuzzy (db : DB) (q : String) : Option ProductRow :=
  pickMaxBy (pScore db q) (productFuzzyCands db q)

/-- product_aliases JOIN products on the owning id. -/
def aliasJoin (db : DB) : List (AliasRow × ProductRow) :=
  db.aliases.filterMap (fun a => (ownerOf db a).map (fun p => (a, p)))

/-- Fuzzy alias candidates: WHERE similarity(a.barcode, q) > 0.3 AND
p.is_deleted = FALSE over the join. -/
def aliasFuzzyCands (db : DB) (q : String) : List (AliasRow × ProductRow) :=
  (aliasJoin db).filter (fun ap =>
    decide ((3 : ℚ)/10 < db.sim ap.1.barcode q) && !ap.2.is_deleted)

/-- similarity(a.barcode, q), the alias-tier score. -/
def aScore (db : DB) (q : String) (ap : AliasRow × ProductRow) : ℚ :=
  db.sim ap.1.barcode q

/-- Fuzzy alias pick: ORDER BY sim DESC LIMIT 1. -/
def aliasFuzzy (db : DB) (q : String) : Option (AliasRow × ProductRow) :=
  pickMaxBy (aScore db q) (aliasFuzzyCands db q)

/-- DatabaseManager.find_product_smart (src/database.py): barcode tier,
exact-name tier, substring-name tier, then the fuzzy fallback, where a
product fuzzy hit beats an alias fuzzy hit when p_fuzzy.sim is at least
a_fuzzy.sim. -/
def find_product_smart (db : DB) (q : String) : Option PData :=
  match find_product_by_barcode db q with
  | some r => some r
  | none =>
  match exactNameLookup db q with
  | some p => some (productToPData p)
  | none =>
  match substringNameLookup db q with
  | some p => some (productToPData p)
  | none =>
  match productFuzzy db q, aliasFuzzy db q with
  | some p, some ap =>
      if aScore db q ap ≤ pScore db q p then some (productToPData p)
      else some (aliasToPData ap.1 ap.2)
  | some p, none => some (productToPData p)
  | none, some ap => some (aliasToPData ap.1 ap.2)
  | none, none => none

/-- Result dictionary of get_product_uom_data. -/
structure UomData where
  price : ℚ
  mrp : ℚ
  factor : ℚ
  uom : String
  base_price : ℚ
  base_mrp : ℚ
deriving DecidableEq

/-- DatabaseManager.get_product_uom_data (src/database.py): the base UOM
of the product is checked first, then the alias rows of the product; the
product probe carries no is_deleted filter, as in the source. -/
def get_product_uom_data (db : DB) (pid : Nat) (uom : String) : Option UomData :=
  match db.products.find? (fun p => p.id == pid) with
  | some p =>
    if p.base_uom == uom then
      some ⟨p.price, p.mrp, 1, p.base_uom, p.price, p.mrp⟩
    else
      match db.aliases.find? (fun a => a.product_id == pid && a.uom == uom) with
      | some a => some ⟨a.price, a.mrp, a.factor, a.uom, p.price, p.mrp⟩
      | none => none
  | none =>
    match db.aliases.find? (fun a => a.product_id == pid && a.uom == uom) with
    | some a => some ⟨a.price, a.mrp, a.factor, a.uom, 0, 0⟩
    | none => none

/-- Day number of the COALESCE sentinel date 9999-12-31. -/
def date9999 : Int := 2932896

/-- A surviving (scheme, rule) pair of the matcher filter. -/
abbrev Cand := SchemeRow × SchemeProductRow

/-- Python truthiness of the uom argument: None and the empty string are
falsy. -/
def pyTruthy : Option String → Bool
  | none => false
  | some s => !(s == "")

/-- The WHERE clause of get_active_scheme_for_product, applied to one
(scheme, rule) pair. -/
def schemeFilter (db : DB) (pid : Nat) (qty : ℚ) (uom : Option String)
    (s : SchemeRow) (sp : SchemeProductRow) : Bool :=
  sp.product_id == pid && s.is_active &&
  decide (sp.min_qty ≤ qty) &&
  (match sp.max_qty with
   | none => true
   | some m => decide (qty ≤ m)) &&
  decide (s.valid_from ≤ db.today) &&
  decide (db.today ≤ s.valid_to.getD date9999) &&
  (if pyTruthy uom then
     match sp.target_uom with
     | none => true
     | some t => uom == some t
   else sp.target_uom == none)

/-- Candidate rows of get_active_scheme_for_product: the join of
scheme_products with schemes restricted by the WHERE clause. -/
def schemeSurvivors (db : DB) (pid : Nat) (qty : ℚ) (uom : Option String) :
    List Cand :=
  db.scheme_products.filterMap (fun sp =>
    match db.schemes.find? (fun s => s.id == sp.scheme_id) with
    | some s => if schemeFilter db pid qty uom s sp then some (s, sp) else none
    | none => none)

/-- Strict lexicographic order underlying ORDER BY min_qty DESC,
benefit_value DESC. -/
abbrev ruleLt (a b : Cand) : Prop :=
  a.2.min_qty < b.2.min_qty ∨
  (a.2.min_qty = b.2.min_qty ∧ a.2.benefit_value < b.2.benefit_value)

/-- LIMIT 1 under ORDER BY min_qty DESC, benefit_value DESC (earliest row
wins a full tie, standing in for the unspecified SQL tie order). -/
def pickBestRule : List Cand → Option Cand
  | [] => none
  | x :: xs =>
    match pickBestRule xs with
    | none => some x
    | some y => if ruleLt x y then some y else some x

/-- DatabaseManager.get_active_scheme_for_product (src/database.py).  The
Python def has parameters (product_id, qty, uom=None) and returns the
selected (s.name, sp.benefit_value, sp.benefit_type, sp.target_uom). -/
def get_active_scheme_for_product (db : DB) (pid : Nat) (qty : ℚ)
    (uom : Option String) : Option (String × ℚ × String × Option String) :=
  (pickBestRule (schemeSurvivors db pid qty uom)).map
    (fun c => (c.1.name, c.2.benefit_value, c.2.benefit_type, c.2.target_uom))

/-- The sub-gram check of recalc_row and process_checkout:
uom and uom.lower() in (g, gram, grams). -/
def isGramUom (uom : String) : Bool :=
  !(uom == "") &&
  (lowerStr uom == "g" || lowerStr uom == "gram" || lowerStr uom == "grams")

/-- Rounding to the nearest integer with ties to even, the behavior of
the Python round builtin, embedded over exact rationals. -/
def pyRound (x : ℚ) : ℤ :=
  let f := Int.floor x
  let r := x - (f : ℚ)
  if r < 1/2 then f
  else if 1/2 < r then f + 1
  else if f % 2 = 0 then f else f + 1

/-- Value displayed by a .2f format: two-decimal rounding. -/
def round2 (x : ℚ) : ℚ := (pyRound (100 * x) : ℚ) / 100

/-- Value displayed by a .3f format: three-decimal rounding. -/
def round3 (x : ℚ) : ℚ := (pyRound (1000 * x) : ℚ) / 1000

/-- A Python positional argument of the value kinds occurring at the
scheme-matcher call site. -/
inductive PyArg where
  | nat (n : Nat)
  | rat (q : ℚ)
  | str (s : String)
  | pynone
deriving DecidableEq

/-- Python positional-argument binding for the method
get_active_scheme_for_product(self, product_id, qty, uom=None): two or
three positional arguments bind, any other count raises TypeError.  The
patterns cover the argument shapes produced by the callers under
verification. -/
def get_active_scheme_for_product_call (db : DB) (args : List PyArg) :
    Except String (Option (String × ℚ × String × Option String)) :=
  match args with
  | [.nat pid, .rat qty] => .ok (get_active_scheme_for_product db pid qty none)
  | [.nat pid, .rat qty, .pynone] =>
      .ok (get_active_scheme_for_product db pid qty none)
  | [.nat pid, .rat qty, .str u] =>
      .ok (get_active_scheme_for_product db pid qty (some u))
  | _ => .error "TypeError"

/-- The values recalc_row reads from its grid row, already parsed: qty and
rate from the text cells (0.0 when absent), the uom text, the mrp combo
value (0.0 on a missing combo or a ValueError), and the product tuple
stored on the name item. -/
structure RowIn where
  qty : ℚ
  rate : ℚ
  uom : String
  mrp : ℚ
  p_data : Option PData
deriving DecidableEq

/-- The observable outcome of one recalc_row call: the final values
written to the rate (column 5), uom (column 3), discount (column 6) and
amount (column 7) cells, the internal rate, effective rate, gross and
discount amounts, and whether the swallowed exception path was taken. -/
structure RowOut where
  rate_cell : Option ℚ
  uom_cell : Option String
  disc_cell : Option ℚ
  amount_cell : Option ℚ
  rate_used : ℚ
  eff_rate : ℚ
  gross : ℚ
  disc_amt : ℚ
  crashed : Bool
deriving DecidableEq

/-- Re-derivation step of recalc_row: when the chosen uom is non-empty
and differs from the stored variant uom, rate and mrp are re-derived via
get_product_uom_data and the stored tuple fields uom, factor, price, mrp
are replaced; a missing unit entry keeps the previous rate (and mrp).
The result is (rate, mrp, updated tuple, rate-cell write). -/
def uomRederive (db : DB) (inp : RowIn) (pd0 : PData) (mrp1 : ℚ) :
    ℚ × ℚ × PData × Option ℚ :=
  if inp.uom ≠ "" ∧ inp.uom ≠ pd0.uom then
    match get_product_uom_data db pd0.id inp.uom with
    | some ud =>
        (ud.price, ud.mrp,
         { pd0 with uom := ud.uom, factor := ud.factor,
                    price := ud.price, mrp := ud.mrp },
         some ud.price)
    | none => (inp.rate, mrp1, pd0, none)
  else (inp.rate, mrp1, pd0, none)

/-- Benefit application of recalc_row, entered with the winning rule
fields (benefit_value, benefit_type) and producing
(gross, discount, rate-cell write, discount-cell write).  The discount
cell stores the displayed .3f value: the percent value for a percent
rule, the discount as a percentage of gross for an amount rule.  An
unrecognized benefit_type leaves the discount 0 and the cell unwritten. -/
def applyBenefit (qty gross0 s_val : ℚ) (s_type : String) (is_gram : Bool)
    (rateW : Option ℚ) : ℚ × ℚ × Option ℚ × Option ℚ :=
  if s_type == "absolute_rate" then
    let abs_rate := if is_gram then s_val / 1000 else s_val
    (qty * abs_rate, 0, some abs_rate, some 0)
  else if s_type == "percent" then
    (gross0, gross0 * s_val / 100, rateW, some (round3 s_val))
  else if s_type == "amount" then
    let benefit := if is_gram then s_val / 1000 else s_val
    let d := qty * benefit
    (gross0, d, rateW,
     some (round3 (if 0 < gross0 then d / gross0 * 100 else 0)))
  else (gross0, 0, rateW, none)

/-- BillingPage.recalc_row (src/main.py), parameterized by the scheme
lookup so the call as written and an arity-corrected call can be compared.
The lookup receives (product id, qty, uom, mrp) exactly as the call site
supplies them.  When the lookup raises, the enclosing try/except of
recalc_row swallows the exception: the writes already made stand and the
discount and amount cells stay untouched.  The target_uom branch of the
winning rule also updates the stored tuple and the uom cell; the stored
tuple update does not feed any later read in the function, so only the
cell write is recorded. -/
def recalc_row_with (db : DB)
    (lookup : Nat → ℚ → String → ℚ →
      Except String (Option (String × ℚ × String × Option String)))
    (inp : RowIn) : RowOut :=
  match inp.p_data with
  | none =>
      { rate_cell := none, uom_cell := none, disc_cell := none,
        amount_cell := none, rate_used := inp.rate, eff_rate := inp.rate,
        gross := 0, disc_amt := 0, crashed := false }
  | some pd0 =>
    let mrp1 := if inp.mrp = 0 then pd0.mrp else inp.mrp
    match uomRederive db inp pd0 mrp1 with
    | (rate1, mrp2, pd1, rateW1) =>
      let rate2 := if rate1 = 0 then pd1.base_price * pd1.factor else rate1
      let rateW2 : Option ℚ :=
        if rate1 = 0 then some (pd1.base_price * pd1.factor) else rateW1
      let is_gram := isGramUom inp.uom
      let eff := if is_gram then rate2 / 1000 else rate2
      let gross0 := inp.qty * eff
      match lookup pd0.id inp.qty inp.uom mrp2 with
      | .error _ =>
          { rate_cell := rateW2, uom_cell := none, disc_cell := none,
            amount_cell := none, rate_used := rate2, eff_rate := eff,
            gross := gross0, disc_amt := 0, crashed := true }
      | .ok none =>
          { rate_cell := rateW2, uom_cell := none, disc_cell := some 0,
            amount_cell := some (round2 (gross0 - 0)), rate_used := rate2,
            eff_rate := eff, gross := gross0, disc_amt := 0,
            crashed := false }
      | .ok (some (_sname, s_val, s_type, s_uom)) =>
          let uomW : Option String :=
            match s_uom with
            | some su => if !(su == "") && !(inp.uom == su) then some su
                         else none
            | none => none
          match applyBenefit inp.qty gross0 s_val s_type is_gram rateW2 with
          | (gross1, disc1, rateW3, discW) =>
              { rate_cell := rateW3, uom_cell := uomW, disc_cell := discW,
                amount_cell := some (round2 (gross1 - disc1)),
                rate_used := rate2, eff_rate := eff, gross := gross1,
                disc_amt := disc1, crashed := false }

/-- recalc_row as written: the scheme matcher is invoked with the four
positional arguments (p_data[0], qty, uom, mrp) of main.py line 4182. -/
def recalc_row (db : DB) (inp : RowIn) : RowOut :=
  recalc_row_with db
    (fun pid qty uom mrp =>
      get_active_scheme_for_product_call db
        [.nat pid, .rat qty, .str uom, .rat mrp])
    inp

/-- recalc_row with the call arity corrected to the signature of
get_active_scheme_for_product by dropping the extra mrp argument.  This
variant is not in the source; it exhibits what the code downstream of the
call computes once the call binds, for comparison with the claims. -/
def recalc_row_patched (db : DB) (inp : RowIn) : RowOut :=
  recalc_row_with db
    (fun pid qty uom _mrp =>
      get_active_scheme_for_product_call db [.nat pid, .rat qty, .str uom])
    inp

/-- BillingPage.recalc_totals (src/main.py): the displayed total is the
sum of the amount-cell values that exist, rounded with the Python round
builtin at bill level; per-line values are left as written. -/
def recalc_totals_total (amounts : List (Option ℚ)) : ℤ :=
  pyRound (amounts.reduceOption).sum

/-- Per-line calc_rate of process_checkout: the rate net of the discount
percentage, divided by 1000 for a sub-gram uom. -/
def checkout_calc_rate (rate disc : ℚ) (uom : String) : ℚ :=
  let eff := rate * (1 - disc / 100)
  if isGramUom uom then eff / 1000 else eff

/-- The total of BillingPage.process_checkout over the parsed rows
(qty, rate, discount percent, uom): lines with qty at most 0 are excluded
and the only integer rounding is the bill-level round at the end. -/
def process_checkout_total (rows : List (ℚ × ℚ × ℚ × String)) : ℤ :=
  pyRound (rows.foldl
    (fun acc r =>
      if 0 < r.1 then acc + r.1 * checkout_calc_rate r.2.1 r.2.2.1 r.2.2.2
      else acc) 0)

/-- Trigram similarity that matches nothing, for scenarios resolved by
exact lookups. -/
def simZero : String → String → ℚ := fun _ _ => 0

/-- Rice product of the spec scenarios: barcode RICE01, base uom kg,
price 110, mrp 110. -/
def rice : ProductRow :=
  ⟨1, "Rice", "RICE01", 110, 110, "Grocery", "kg", false⟩

/-- An always-valid active scheme header. -/
def promoScheme : SchemeRow := ⟨1, "Promo", 0, none, true⟩

/-- Rule of the spec percent scenario: min_qty 5, no max, no target uom,
percent 10. -/
def percentRule : SchemeProductRow := ⟨1, 1, 5, none, none, "percent", 10⟩

/-- Catalog of the percent scenario (claims C1 and C5). -/
def db1 : DB := ⟨[rice], [], [promoScheme], [percentRule], 100, simZero⟩

/-- Billing row of the percent scenario: qty 6, rate 110, uom kg,
mrp 110, Rice resolved. -/
def inp1 : RowIn := ⟨6, 110, "kg", 110, some (productToPData rice)⟩

/-- Rule keyed to target_uom kg, for the uom re-derivation claim. -/
def kgTargetRule : SchemeProductRow := ⟨1, 1, 1, none, some "kg", "percent", 10⟩

/-- Catalog for claim C2: the only rule targets uom kg. -/
def db2 : DB := ⟨[rice], [], [promoScheme], [kgTargetRule], 100, simZero⟩

/-- Billing row in uom pcs against the kg-targeted rule. -/
def inp2 : RowIn := ⟨6, 110, "pcs", 110, some (productToPData rice)⟩

/-- Competing rules for the tie-break claim: high min_qty 5 with benefit
10, low min_qty 2 with benefit 50, and min_qty 5 with benefit 7. -/
def ruleHi : SchemeProductRow := ⟨1, 1, 5, none, none, "percent", 10⟩

/-- Low-threshold competing rule with the larger benefit. -/
def ruleLo : SchemeProductRow := ⟨1, 1, 2, none, none, "percent", 50⟩

/-- Equal-threshold competing rule with the smaller benefit. -/
def ruleMid : SchemeProductRow := ⟨1, 1, 5, none, none, "percent", 7⟩

/-- Catalog for claim C3 with three surviving rules. -/
def db3 : DB := ⟨[rice], [], [promoScheme], [ruleLo, ruleHi, ruleMid], 100, simZero⟩

/-- Loose-weight product: per-kilogram base price 100. -/
def loose : ProductRow := ⟨1, "Loose", "LOOSE1", 120, 100, "", "kg", false⟩

/-- Catalog for the gram-conversion claim: no schemes, no gram alias. -/
def db4 : DB := ⟨[loose], [], [], [], 100, simZero⟩

/-- Billing row for the gram-conversion claim: 250 g at base rate 100. -/
def inp4 : RowIn := ⟨250, 100, "g", 0, some (productToPData loose)⟩

/-- Rule with benefit_type absolute_rate 90. -/
def absRule : SchemeProductRow := ⟨1, 1, 5, none, none, "absolute_rate", 90⟩

/-- Catalog for the absolute_rate branch of claim C5. -/
def db5a : DB := ⟨[rice], [], [promoScheme], [absRule], 100, simZero⟩

/-- Rule with benefit_type amount 20 and no threshold. -/
def amtRule : SchemeProductRow := ⟨1, 1, 0, none, none, "amount", 20⟩

/-- Catalog for the amount branch of claim C5 on a sub-gram line. -/
def db5b : DB := ⟨[loose], [], [promoScheme], [amtRule], 100, simZero⟩

/-- Sub-gram billing row for the amount branch: 250 g at base rate 100. -/
def inp5b : RowIn := ⟨250, 100, "g", 0, some (productToPData loose)⟩

/-- Piece-sold product for the unknown-uom claim: base uom pcs, rate 50. -/
def widget : ProductRow := ⟨1, "Widget", "W1", 60, 50, "", "pcs", false⟩

/-- Catalog for the unknown-uom claim: no box unit entry, no schemes. -/
def db7 : DB := ⟨[widget], [], [], [], 100, simZero⟩

/-- Billing row requesting the unknown uom box with previous rate 50. -/
def inp7 : RowIn := ⟨2, 50, "box", 0, some (productToPData widget)⟩

/-- Catalog for the rounding claim: Rice with no schemes. -/
def db9 : DB := ⟨[rice], [], [], [], 100, simZero⟩

/-- Billing row for the rounding claim: qty 6 at rate 110. -/
def inp9 : RowIn := ⟨6, 110, "kg", 110, some (productToPData rice)⟩

/-- Similarity table of the fuzzy-resolution example: the token scores
7/20 against the alias barcode ALIAS1 and 1/4 against the product name
Sugar, 0 against everything else. -/
def sim6 : String → String → ℚ := fun a b =>
  if a == "ALIAS1" && b == "tok" then 7/20
  else if a == "Sugar" && b == "tok" then 1/4
  else 0

/-- Product of the fuzzy-resolution example. -/
def sugar : ProductRow := ⟨1, "Sugar", "SGR1", 50, 45, "", "pcs", false⟩

/-- Alias of the fuzzy-resolution example, barcode ALIAS1. -/
def sugarAlias : AliasRow := ⟨1, 1, "ALIAS1", "pack", 500, 450, 10, 1⟩

/-- Catalog of the fuzzy-resolution example. -/
def db6 : DB := ⟨[sugar], [sugarAlias], [], [], 100, sim6⟩

/-- Product for the lazy-derivation claim: base price 100 per kg. -/
def rice8 : ProductRow := ⟨1, "Rice", "P8", 120, 100, "", "kg", false⟩

/-- Alias row with no explicit price of its own (price 0), factor 5. -/
def packAlias : AliasRow := ⟨1, 1, "R5", "pack", 0, 0, 5, 1⟩

/-- Catalog for the lazy-derivation claim. -/
def db8 : DB := ⟨[rice8], [packAlias], [], [], 100, simZero⟩

/-- The same catalog after the base price is edited from 100 to 120. -/
def db8e : DB := ⟨[{ rice8 with price := 120 }], [packAlias], [], [], 100, simZero⟩

/-- Billing row pricing the pack uom; the rate cell still shows 77. -/
def inp8 : RowIn := ⟨2, 77, "pack", 0, some (productToPData rice8)⟩

/-- The same billing row resolved against the edited catalog. -/
def inp8e : RowIn := ⟨2, 77, "pack", 0, some (productToPData { rice8 with price := 120 })⟩

/-- Catalog for the variant-shape claim. -/
def db10 : DB := ⟨[widget], [sugarAlias], [], [], 100, simZero⟩

/-- Negation of the strict rule order, spelled as the claims spell it. -/
theorem not_ruleLt (a b : Cand) :
    ¬ ruleLt a b ↔
      b.2.min_qty ≤ a.2.min_qty ∧
        (a.2.min_qty = b.2.min_qty → b.2.benefit_value ≤ a.2.benefit_value) := by
  constructor
  · intro h
    constructor
    · by_contra hc
      exact h (Or.inl (lt_of_not_le hc))
    · intro he
      by_contra hc
      exact h (Or.inr ⟨he, lt_of_not_le hc⟩)
  · rintro ⟨h1, h2⟩ (hl | ⟨he, hb⟩)
    · exact absurd h1 (not_le.mpr hl)
    · exact absurd (h2 he) (not_le.mpr hb)

/-- The strict rule order is asymmetric. -/
theorem ruleLt_asymm {a b : Cand} (h : ruleLt a b) : ¬ ruleLt b a := by
  rcases h with h | ⟨he, hb⟩
  · rw [not_ruleLt]
    exact ⟨le_of_lt h, fun he2 => absurd he2.symm (ne_of_lt h)⟩
  · rw [not_ruleLt]
    exact ⟨le_of_eq he, fun _ => le_of_lt hb⟩

/-- The strict rule order is irreflexive. -/
theorem ruleLt_irrefl (a : Cand) : ¬ ruleLt a a := by
  rw [not_ruleLt]
  exact ⟨le_refl _, fun _ => le_refl _⟩

/-- Being maximal for the rule order is transitive along the chain built
by pickBestRule. -/
theorem not_ruleLt_trans {x y r : Cand} (h1 : ¬ ruleLt x y)
    (h2 : ¬ ruleLt y r) : ¬ ruleLt x r := by
  rw [not_ruleLt] at h1 h2 ⊢
  obtain ⟨h1a, h1b⟩ := h1
  obtain ⟨h2a, h2b⟩ := h2
  refine ⟨le_trans h2a h1a, fun he => ?_⟩
  have hx1 : x.2.min_qty = y.2.min_qty := by linarith
  have hy1 : y.2.min_qty = r.2.min_qty := by linarith
  have hb1 := h1b hx1
  have hb2 := h2b hy1
  linarith

/-- pickBestRule yields a candidate on any nonempty list. -/
theorem pickBestRule_isSome (x : Cand) (xs : List Cand) :
    ∃ b, pickBestRule (x :: xs) = some b := by
  cases h : pickBestRule xs with
  | none => exact ⟨x, by simp [pickBestRule, h]⟩
  | some y =>
    by_cases hlt : ruleLt x y
    · exact ⟨y, by simp [pickBestRule, h, hlt]⟩
    · exact ⟨x, by simp [pickBestRule, h, hlt]⟩

/-- pickBestRule yields a member of its input. -/
theorem pickBestRule_mem :
    ∀ (l : List Cand) (b : Cand), pickBestRule l = some b → b ∈ l := by
  intro l
  induction l with
  | nil => intro b h; simp [pickBestRule] at h
  | cons x xs ih =>
    intro b h
    simp only [pickBestRule] at h
    cases hx : pickBestRule xs with
    | none =>
      simp only [hx] at h
      simp only [Option.some.injEq] at h
      subst h
      exact List.mem_cons_self _ _
    | some y =>
      simp only [hx] at h
      by_cases hlt : ruleLt x y
      · rw [if_pos hlt] at h
        simp only [Option.some.injEq] at h
        subst h
        exact List.mem_cons_of_mem _ (ih _ hx)
      · rw [if_neg hlt] at h
        simp only [Option.some.injEq] at h
        subst h
        exact List.mem_cons_self _ _

/-- pickBestRule yields a maximum of the rule order over its input. -/
theorem pickBestRule_max :
    ∀ (l : List Cand) (b : Cand), pickBestRule l = some b →
      ∀ r ∈ l, ¬ ruleLt b r := by
  intro l
  induction l with
  | nil => intro b h; simp [pickBestRule] at h
  | cons x xs ih =>
    intro b h r hr
    simp only [pickBestRule] at h
    cases hx : pickBestRule xs with
    | none =>
      have hxs : xs = [] := by
        cases xs with
        | nil => rfl
        | cons z zs =>
          obtain ⟨c, hc⟩ := pickBestRule_isSome z zs
          rw [hc] at hx
          cases hx
      subst hxs
      simp only [hx] at h
      simp only [Option.some.injEq] at h
      subst h
      rcases List.mem_singleton.mp hr with rfl
      exact ruleLt_irrefl _
    | some y =>
      have hall := ih y hx
      simp only [hx] at h
      by_cases hlt : ruleLt x y
      · rw [if_pos hlt] at h
        simp only [Option.some.injEq] at h
        subst h
        rcases List.mem_cons.mp hr with rfl | hr2
        · exact ruleLt_asymm hlt
        · exact hall r hr2
      · rw [if_neg hlt] at h
        simp only [Option.some.injEq] at h
        subst h
        rcases List.mem_cons.mp hr with rfl | hr2
        · exact ruleLt_irrefl _
        · exact not_ruleLt_trans hlt (hall r hr2)

/-- C3: whenever at least one candidate rule survives the filter of
get_active_scheme_for_product (in particular whenever two or more do),
the function returns exactly one candidate, and that candidate has the
largest min_qty of all survivors and, among survivors of equal min_qty,
the largest benefit_value. -/
theorem scheme_rule_selection_tiebreak (db : DB) (pid : Nat) (qty : ℚ)
    (uom : Option String) (r : Cand)
    (hr : r ∈ schemeSurvivors db pid qty uom) :
    ∃ b : Cand, b ∈ schemeSurvivors db pid qty uom ∧
      get_active_scheme_for_product db pid qty uom =
        some (b.1.name, b.2.benefit_value, b.2.benefit_type,
              b.2.target_uom) ∧
      ∀ r2 ∈ schemeSurvivors db pid qty uom,
        r2.2.min_qty ≤ b.2.min_qty ∧
        (r2.2.min_qty = b.2.min_qty →
          r2.2.benefit_value ≤ b.2.benefit_value) := by
  obtain ⟨b, hb⟩ : ∃ b, pickBestRule (schemeSurvivors db pid qty uom) = some b := by
    cases hl : schemeSurvivors db pid qty uom with
    | nil => rw [hl] at hr; exact absurd hr (List.not_mem_nil r)
    | cons x xs => exact pickBestRule_isSome x xs
  refine ⟨b, pickBestRule_mem _ b hb, ?_, ?_⟩
  · unfold get_active_scheme_for_product
    rw [hb]
    rfl
  · intro r2 hr2
    have hmax := pickBestRule_max _ b hb r2 hr2
    rw [not_ruleLt] at hmax
    exact ⟨hmax.1, fun he => hmax.2 he.symm⟩

/-- Witness for C3: with the rules (min_qty 5, value 10),
(min_qty 2, value 50) and (min_qty 5, value 7) all surviving for qty 6,
the matcher returns the min_qty 5, value 10 rule. -/
theorem scheme_rule_selection_tiebreak_witness :
    (promoScheme, ruleHi) ∈ schemeSurvivors db3 1 6 (some "kg") ∧
    get_active_scheme_for_product db3 1 6 (some "kg") =
      some ("Promo", 10, "percent", none) := by
  have hmem : (promoScheme, ruleHi) ∈ schemeSurvivors db3 1 6 (some "kg") := by
    norm_num [schemeSurvivors, schemeFilter, db3, promoScheme, ruleHi,
      ruleLo, ruleMid, pyTruthy, date9999, List.find?, List.filterMap]
  obtain ⟨b, _hbmem, _hbeq, _hbmax⟩ :=
    scheme_rule_selection_tiebreak db3 1 6 (some "kg") (promoScheme, ruleHi)
      hmem
  refine ⟨hmem, ?_⟩
  norm_num [get_active_scheme_for_product, schemeSurvivors, schemeFilter,
    pickBestRule, ruleLt, db3, promoScheme, ruleHi, ruleLo, ruleMid,
    pyTruthy, date9999, List.find?, List.filterMap]

/-- pickMaxBy yields a member of its input. -/
theorem pickMaxBy_mem {α : Type} (f : α → ℚ) :
    ∀ (l : List α) (b : α), pickMaxBy f l = some b → b ∈ l := by
  intro l
  induction l with
  | nil => intro b h; simp [pickMaxBy] at h
  | cons x xs ih =>
    intro b h
    simp only [pickMaxBy] at h
    cases hx : pickMaxBy f xs with
    | none =>
      simp only [hx] at h
      simp only [Option.some.injEq] at h
      subst h
      exact List.mem_cons_self _ _
    | some y =>
      simp only [hx] at h
      by_cases hlt : f x < f y
      · rw [if_pos hlt] at h
        simp only [Option.some.injEq] at h
        subst h
        exact List.mem_cons_of_mem _ (ih _ hx)
      · rw [if_neg hlt] at h
        simp only [Option.some.injEq] at h
        subst h
        exact List.mem_cons_self _ _

/-- A product fuzzy pick clears the 0.3 floor on its best score. -/
theorem productFuzzy_score (db : DB) (q : String) (p : ProductRow)
    (h : productFuzzy db q = some p) : (3 : ℚ)/10 < pScore db q p := by
  have hmem := pickMaxBy_mem (pScore db q) _ p h
  have hpred := List.of_mem_filter hmem
  simp only [Bool.and_eq_true, Bool.or_eq_true, decide_eq_true_eq] at hpred
  rcases hpred.1 with hn | hb
  · exact lt_max_iff.mpr (Or.inl hn)
  · exact lt_max_iff.mpr (Or.inr hb)

/-- An alias fuzzy pick clears the 0.3 floor on its score. -/
theorem aliasFuzzy_score (db : DB) (q : String) (ap : AliasRow × ProductRow)
    (h : aliasFuzzy db q = some ap) : (3 : ℚ)/10 < aScore db q ap := by
  have hmem := pickMaxBy_mem (aScore db q) _ ap h
  have hpred := List.of_mem_filter hmem
  simp only [Bool.and_eq_true, decide_eq_true_eq] at hpred
  exact hpred.1

/-- C6: when the exact-barcode tier and the exact and substring name
tiers all miss, resolution is decided by the fuzzy fallback: only
candidates whose trigram score exceeds 0.3 are considered, the side
(product or alias) with the higher best score wins, a tied score goes to
the product, and with no surviving candidate resolution fails. -/
theorem fuzzy_tier_resolution (db : DB) (q : String)
    (h1 : find_product_by_barcode db q = none)
    (h2 : exactNameLookup db q = none)
    (h3 : substringNameLookup db q = none) :
    (∀ p, productFuzzy db q = some p → (3 : ℚ)/10 < pScore db q p) ∧
    (∀ ap, aliasFuzzy db q = some ap → (3 : ℚ)/10 < aScore db q ap) ∧
    (∀ p ap, productFuzzy db q = some p → aliasFuzzy db q = some ap →
      aScore db q ap ≤ pScore db q p →
      find_product_smart db q = some (productToPData p)) ∧
    (∀ p ap, productFuzzy db q = some p → aliasFuzzy db q = some ap →
      pScore db q p < aScore db q ap →
      find_product_smart db q = some (aliasToPData ap.1 ap.2)) ∧
    (∀ p, productFuzzy db q = some p → aliasFuzzy db q = none →
      find_product_smart db q = some (productToPData p)) ∧
    (∀ ap, productFuzzy db q = none → aliasFuzzy db q = some ap →
      find_product_smart db q = some (aliasToPData ap.1 ap.2)) ∧
    (productFuzzy db q = none → aliasFuzzy db q = none →
      find_product_smart db q = none) := by
  refine ⟨productFuzzy_score db q, aliasFuzzy_score db q, ?_, ?_, ?_, ?_, ?_⟩
  · intro p ap hp hap hle
    simp [find_product_smart, h1, h2, h3, hp, hap, hle]
  · intro p ap hp hap hlt
    simp [find_product_smart, h1, h2, h3, hp, hap, not_le.mpr hlt]
  · intro p hp hap
    simp [find_product_smart, h1, h2, h3, hp, hap]
  · intro ap hp hap
    simp [find_product_smart, h1, h2, h3, hp, hap]
  · intro hp hap
    simp [find_product_smart, h1, h2, h3, hp, hap]

/-- Witness for C6, the worked example of the claim: the token scores
7/20 against the alias barcode and only 1/4 against the product name, so
the alias tier alone clears the floor and the token resolves to the
alias variant. -/
theorem fuzzy_tier_resolution_witness :
    find_product_smart db6 "tok" = some (aliasToPData sugarAlias sugar) := by
  have h1 : find_product_by_barcode db6 "tok" = none := by
    have e1 : ("SGR1" == "tok") = false := by decide
    have e2 : ("ALIAS1" == "tok") = false := by decide
    norm_num [find_product_by_barcode, db6, sugar, sugarAlias, ownerOf,
      List.find?, e1, e2]
  have h2 : exactNameLookup db6 "tok" = none := by
    have e3 : (lowerStr "Sugar" == lowerStr "tok") = false := by decide
    norm_num [exactNameLookup, db6, sugar, List.find?, e3]
  have h3 : substringNameLookup db6 "tok" = none := by
    have e4 : containsCI "Sugar" "tok" = false := by decide
    norm_num [substringNameLookup, substringMatches, pickMinByName, db6,
      sugar, e4, List.filter]
  have s1 : sim6 "Sugar" "tok" = 1/4 := rfl
  have s2 : sim6 "SGR1" "tok" = 0 := rfl
  have s3 : sim6 "ALIAS1" "tok" = 7/20 := rfl
  have h4 : productFuzzy db6 "tok" = none := by
    norm_num [productFuzzy, productFuzzyCands, pickMaxBy, db6, sugar, s1, s2,
      List.filter]
  have h5 : aliasFuzzy db6 "tok" = some (sugarAlias, sugar) := by
    norm_num [aliasFuzzy, aliasFuzzyCands, aliasJoin, pickMaxBy, db6, sugar,
      sugarAlias, s3, ownerOf, List.filter, List.filterMap, List.find?]
  exact (fuzzy_tier_resolution db6 "tok" h1 h2 h3).2.2.2.2.2.1
    (sugarAlias, sugar) h4 h5

/-- C8: when the re-derived unit entry of the chosen uom carries price 0
(an alias row with no explicit price of its own), the rate billed and
displayed is derived at call time as the base price stored on the
resolved tuple times the factor of the unit entry; a later base-price
edit therefore reaches the next resolution-and-pricing pass. -/
theorem alias_missing_price_lazy_derived (db : DB) (inp : RowIn)
    (pd : PData) (ud : UomData)
    (hp : inp.p_data = some pd)
    (hne : inp.uom ≠ "" ∧ inp.uom ≠ pd.uom)
    (hl : get_product_uom_data db pd.id inp.uom = some ud)
    (hz : ud.price = 0) :
    (recalc_row db inp).rate_used = pd.base_price * ud.factor ∧
    (recalc_row db inp).rate_cell = some (pd.base_price * ud.factor) := by
  have hre : uomRederive db inp pd (if inp.mrp = 0 then pd.mrp else inp.mrp) =
      (ud.price, ud.mrp,
       { pd with uom := ud.uom, factor := ud.factor, price := ud.price,
                 mrp := ud.mrp },
       some ud.price) := by
    unfold uomRederive
    rw [if_pos hne, hl]
  constructor <;>
    simp [recalc_row, recalc_row_with, hp, hre, hz,
      get_active_scheme_for_product_call]

/-- Witness for C8: the pack alias of db8 stores price 0 and factor 5;
pricing the pack uom derives rate 100 * 5 = 500 from the base price, and
after the base price is edited to 120 the same pricing pass derives
120 * 5 = 600. -/
theorem alias_missing_price_lazy_derived_witness :
    (recalc_row db8 inp8).rate_cell = some 500 ∧
    (recalc_row db8e inp8e).rate_cell = some 600 := by
  have hu : get_product_uom_data db8 1 "pack" =
      some ⟨0, 0, 5, "pack", 100, 120⟩ := by
    norm_num [get_product_uom_data, db8, rice8, packAlias, List.find?]
    all_goals decide
  have hue : get_product_uom_data db8e 1 "pack" =
      some ⟨0, 0, 5, "pack", 120, 120⟩ := by
    norm_num [get_product_uom_data, db8e, rice8, packAlias, List.find?]
    all_goals decide
  constructor
  · have h := alias_missing_price_lazy_derived db8 inp8 (productToPData rice8)
      ⟨0, 0, 5, "pack", 100, 120⟩ rfl (by decide) hu rfl
    rw [h.2]
    norm_num [productToPData, rice8]
  · have h := alias_missing_price_lazy_derived db8e inp8e
      (productToPData { rice8 with price := 120 })
      ⟨0, 0, 5, "pack", 120, 120⟩ rfl (by decide) hue rfl
    rw [h.2]
    norm_num [productToPData, rice8]

/-- Every result of find_product_by_barcode is a product-branch or an
alias-branch tuple. -/
theorem find_product_by_barcode_cases (db : DB) (q : String) (v : PData)
    (h : find_product_by_barcode db q = some v) :
    (∃ p, v = productToPData p) ∨ ∃ a p, v = aliasToPData a p := by
  unfold find_product_by_barcode at h
  cases h1 : db.products.find? (fun p => p.barcode == q && !p.is_deleted) with
  | some p =>
    simp only [h1, Option.some.injEq] at h
    exact Or.inl ⟨p, h.symm⟩
  | none =>
    simp only [h1] at h
    cases h2 : db.aliases.find? (fun a =>
        a.barcode == q &&
        (match ownerOf db a with
         | some p => !p.is_deleted
         | none => false)) with
    | some a =>
      simp only [h2] at h
      cases h3 : ownerOf db a with
      | some p =>
        rw [h3] at h
        simp only [Option.map_some', Option.some.injEq] at h
        exact Or.inr ⟨a, p, h.symm⟩
      | none => rw [h3] at h; cases h
    | none => simp only [h2] at h; cases h

/-- Every result of find_product_smart is a product-branch or an
alias-branch tuple. -/
theorem find_product_smart_cases (db : DB) (q : String) (v : PData)
    (h : find_product_smart db q = some v) :
    (∃ p, v = productToPData p) ∨ ∃ a p, v = aliasToPData a p := by
  cases hb : find_product_by_barcode db q with
  | some r =>
    simp only [find_product_smart, hb, Option.some.injEq] at h
    subst h
    exact find_product_by_barcode_cases db q _ hb
  | none =>
    cases he : exactNameLookup db q with
    | some p =>
      simp only [find_product_smart, hb, he, Option.some.injEq] at h
      exact Or.inl ⟨p, h.symm⟩
    | none =>
      cases hsub : substringNameLookup db q with
      | some p =>
        simp only [find_product_smart, hb, he, hsub, Option.some.injEq] at h
        exact Or.inl ⟨p, h.symm⟩
      | none =>
        cases hpf : productFuzzy db q with
        | some p =>
          cases haf : aliasFuzzy db q with
          | some ap =>
            simp only [find_product_smart, hb, he, hsub, hpf, haf] at h
            by_cases hle : aScore db q ap ≤ pScore db q p
            · rw [if_pos hle] at h
              simp only [Option.some.injEq] at h
              exact Or.inl ⟨p, h.symm⟩
            · rw [if_neg hle] at h
              simp only [Option.some.injEq] at h
              exact Or.inr ⟨ap.1, ap.2, h.symm⟩
          | none =>
            simp only [find_product_smart, hb, he, hsub, hpf, haf,
              Option.some.injEq] at h
            exact Or.inl ⟨p, h.symm⟩
        | none =>
          cases haf : aliasFuzzy db q with
          | some ap =>
            simp only [find_product_smart, hb, he, hsub, hpf, haf,
              Option.some.injEq] at h
            exact Or.inr ⟨ap.1, ap.2, h.symm⟩
          | none =>
            simp only [find_product_smart, hb, he, hsub, hpf, haf] at h
            exact Option.noConfusion h

/-- C10: a variant resolved through any non-alias tier (equivalently, one
whose is_alias flag is false) has factor 1, load quantity 1, and carries
base_price and base_mrp equal to its own price and mrp; contrapositively
a variant with factor other than 1 can only come from an alias tier. -/
theorem base_variant_tuple_shape (db : DB) (q : String) (v : PData)
    (h : find_product_smart db q = some v ∨
         find_product_by_barcode db q = some v)
    (ha : v.is_alias = false) :
    v.factor = 1 ∧ v.qty = 1 ∧ v.base_price = v.price ∧
      v.base_mrp = v.mrp := by
  have hc : (∃ p, v = productToPData p) ∨ ∃ a p, v = aliasToPData a p := by
    rcases h with h | h
    · exact find_product_smart_cases db q v h
    · exact find_product_by_barcode_cases db q v h
  rcases hc with ⟨p, rfl⟩ | ⟨a, p, rfl⟩
  · exact ⟨rfl, rfl, rfl, rfl⟩
  · exact absurd ha (by simp [aliasToPData])

/-- Witness for C10: resolving the widget barcode in db10 yields the
base-variant tuple with factor 1, load quantity 1 and base price and mrp
equal to its own. -/
theorem base_variant_tuple_shape_witness :
    (productToPData widget).factor = 1 ∧ (productToPData widget).qty = 1 ∧
    (productToPData widget).base_price = (productToPData widget).price ∧
    (productToPData widget).base_mrp = (productToPData widget).mrp := by
  have hsmart : find_product_smart db10 "W1" = some (productToPData widget) := by
    norm_num [find_product_smart, find_product_by_barcode, db10, widget,
      List.find?]
  exact base_variant_tuple_shape db10 "W1" (productToPData widget)
    (Or.inl hsmart) rfl

/-- C1: the spec contract best_rule(product_id, quantity, uom, mrp) does
not hold of the code: the pricing call at main.py line 4182 passes four
positional arguments to get_active_scheme_for_product, whose signature is
(product_id, qty, uom=None), so every pricing call raises TypeError,
recalc_row swallows it, and no rule at all is returned to pricing — here
shown on a catalog whose one active, in-window, quantity-satisfying rule
is selected by the correctly invoked three-argument matcher. -/
theorem scheme_matcher_call_mismatch :
    (recalc_row db1 inp1).crashed = true ∧
    (recalc_row db1 inp1).amount_cell = none ∧
    get_active_scheme_for_product db1 1 6 (some "kg") =
      some ("Promo", 10, "percent", none) := by
  have hg : isGramUom "kg" = false := by decide
  refine ⟨?_, ?_, ?_⟩
  · norm_num [recalc_row, recalc_row_with, uomRederive,
      get_active_scheme_for_product_call, db1, inp1, rice, productToPData, hg]
  · norm_num [recalc_row, recalc_row_with, uomRederive,
      get_active_scheme_for_product_call, db1, inp1, rice, productToPData, hg]
  · norm_num [get_active_scheme_for_product, schemeSurvivors, schemeFilter,
      pickBestRule, ruleLt, db1, rice, promoScheme, percentRule, pyTruthy,
      date9999, List.find?, List.filterMap]

/-- C2: no pricing call ever re-derives for a winning target_uom and
re-runs matching: the call as written crashes with TypeError, the matcher
only returns rules whose target_uom is null or equal to the passed uom
(so a rule targeting kg never wins a pcs line), and even with the call
arity corrected the code applies the first match without any second
matcher call — the arity-corrected run here prices the line with no
re-derivation (no uom cell write) and no scheme. -/
theorem scheme_uom_rederivation_never_runs :
    (recalc_row db2 inp2).crashed = true ∧
    get_active_scheme_for_product db2 1 6 (some "pcs") = none ∧
    (recalc_row_patched db2 inp2).uom_cell = none ∧
    (recalc_row_patched db2 inp2).amount_cell = some 660 := by
  have hg : isGramUom "pcs" = false := by decide
  have hu : get_product_uom_data db2 1 "pcs" = none := by
    norm_num [get_product_uom_data, db2, rice, List.find?]
    all_goals exact fun h => absurd h (by decide)
  have hs : get_active_scheme_for_product db2 1 6 (some "pcs") = none := by
    norm_num [get_active_scheme_for_product, schemeSurvivors, schemeFilter,
      pickBestRule, ruleLt, db2, promoScheme, kgTargetRule, pyTruthy,
      date9999, List.find?, List.filterMap]
  refine ⟨?_, hs, ?_⟩
  · norm_num [recalc_row, recalc_row_with, uomRederive,
      get_active_scheme_for_product_call, hg, hu, inp2, rice, productToPData]
  · norm_num [recalc_row_patched, recalc_row_with, uomRederive, applyBenefit,
      get_active_scheme_for_product_call, hs, hg, hu, inp2, rice,
      productToPData]
    norm_num [round2, pyRound, Int.fract]

/-- C4: for a sub-gram uom the effective rate is the looked-up rate
divided by 1000 before being multiplied by the quantity (gross
250 * (100/1000) = 25), but the faithful pricing call never produces the
claimed line amount round(25, 2) because the matcher call raises
TypeError first; the arity-corrected run yields exactly 25. -/
theorem gram_division_without_line_amount :
    (recalc_row db4 inp4).rate_used = 100 ∧
    (recalc_row db4 inp4).eff_rate = 1/10 ∧
    (recalc_row db4 inp4).gross = 25 ∧
    (recalc_row db4 inp4).amount_cell = none ∧
    (recalc_row_patched db4 inp4).amount_cell = some 25 := by
  have hg : isGramUom "g" = true := by decide
  have hu : get_product_uom_data db4 1 "g" = none := by
    norm_num [get_product_uom_data, db4, loose, List.find?]
    all_goals exact fun h => absurd h (by decide)
  have hs : get_active_scheme_for_product db4 1 250 (some "g") = none := by
    norm_num [get_active_scheme_for_product, schemeSurvivors, schemeFilter,
      pickBestRule, ruleLt, db4, List.filterMap]
  norm_num [recalc_row, recalc_row_patched, recalc_row_with, uomRederive,
    applyBenefit, get_active_scheme_for_product_call, hs, hg, hu, inp4,
    loose, productToPData]
  norm_num [round2, pyRound, Int.fract]

/-- C5: the three benefit forms (percent discount gross*value/100,
absolute_rate override with recomputed gross and zero discount, per-unit
amount with the sub-gram division) are exactly what the code after the
matcher call computes — shown on the arity-corrected run, which yields
594 for the spec percent scenario, rate 90 and amount 540 for
absolute_rate 90, and discount 5 with amount 20 for a 250 g amount rule —
but the faithful call crashes first, so no benefit is ever applied and no
discount or amount cell is written. -/
theorem scheme_benefit_effects_unreachable :
    (recalc_row db1 inp1).crashed = true ∧
    (recalc_row db1 inp1).disc_cell = none ∧
    (recalc_row_patched db1 inp1).gross = 660 ∧
    (recalc_row_patched db1 inp1).disc_amt = 66 ∧
    (recalc_row_patched db1 inp1).amount_cell = some 594 ∧
    (recalc_row_patched db5a inp1).rate_cell = some 90 ∧
    (recalc_row_patched db5a inp1).disc_amt = 0 ∧
    (recalc_row_patched db5a inp1).amount_cell = some 540 ∧
    (recalc_row_patched db5b inp5b).disc_amt = 5 ∧
    (recalc_row_patched db5b inp5b).amount_cell = some 20 := by
  have hg : isGramUom "kg" = false := by decide
  have hgg : isGramUom "g" = true := by decide
  have hs1 : get_active_scheme_for_product db1 1 6 (some "kg") =
      some ("Promo", 10, "percent", none) := by
    norm_num [get_active_scheme_for_product, schemeSurvivors, schemeFilter,
      pickBestRule, ruleLt, db1, rice, promoScheme, percentRule, pyTruthy,
      date9999, List.find?, List.filterMap]
  have hs2 : get_active_scheme_for_product db5a 1 6 (some "kg") =
      some ("Promo", 90, "absolute_rate", none) := by
    norm_num [get_active_scheme_for_product, schemeSurvivors, schemeFilter,
      pickBestRule, ruleLt, db5a, promoScheme, absRule, pyTruthy, date9999,
      List.find?, List.filterMap]
  have hu5 : get_product_uom_data db5b 1 "g" = none := by
    norm_num [get_product_uom_data, db5b, loose, List.find?]
    all_goals exact fun h => absurd h (by decide)
  have hs3 : get_active_scheme_for_product db5b 1 250 (some "g") =
      some ("Promo", 20, "amount", none) := by
    norm_num [get_active_scheme_for_product, schemeSurvivors, schemeFilter,
      pickBestRule, ruleLt, db5b, promoScheme, amtRule, pyTruthy, date9999,
      List.find?, List.filterMap]
  refine ⟨?_, ?_, ?_, ?_, ?_, ?_, ?_, ?_, ?_, ?_⟩
  · norm_num [recalc_row, recalc_row_with, uomRederive,
      get_active_scheme_for_product_call, db1, inp1, rice, productToPData, hg]
  · norm_num [recalc_row, recalc_row_with, uomRederive,
      get_active_scheme_for_product_call, db1, inp1, rice, productToPData, hg]
  · norm_num [recalc_row_patched, recalc_row_with, uomRederive, applyBenefit,
      get_active_scheme_for_product_call, hs1, hs2, hg, inp1, rice,
      productToPData]
    try simp
    try norm_num [round2, round3, pyRound, Int.fract]
  · norm_num [recalc_row_patched, recalc_row_with, uomRederive, applyBenefit,
      get_active_scheme_for_product_call, hs1, hs2, hg, inp1, rice,
      productToPData]
    try simp
    try norm_num [round2, round3, pyRound, Int.fract]
  · norm_num [recalc_row_patched, recalc_row_with, uomRederive, applyBenefit,
      get_active_scheme_for_product_call, hs1, hs2, hg, inp1, rice,
      productToPData]
    try simp
    try norm_num [round2, round3, pyRound, Int.fract]
  · norm_num [recalc_row_patched, recalc_row_with, uomRederive, applyBenefit,
      get_active_scheme_for_product_call, hs1, hs2, hg, inp1, rice,
      productToPData]
    try simp
    try norm_num [round2, round3, pyRound, Int.fract]
  · norm_num [recalc_row_patched, recalc_row_with, uomRederive, applyBenefit,
      get_active_scheme_for_product_call, hs1, hs2, hg, inp1, rice,
      productToPData]
    try simp
    try norm_num [round2, round3, pyRound, Int.fract]
  · norm_num [recalc_row_patched, recalc_row_with, uomRederive, applyBenefit,
      get_active_scheme_for_product_call, hs1, hs2, hg, inp1, rice,
      productToPData]
    try simp
    try norm_num [round2, round3, pyRound, Int.fract]
  · norm_num [recalc_row_patched, recalc_row_with, uomRederive, applyBenefit,
      get_active_scheme_for_product_call, hs3, hgg, hu5, inp5b, loose,
      productToPData]
    try simp
    try norm_num [round2, round3, pyRound, Int.fract]
  · norm_num [recalc_row_patched, recalc_row_with, uomRederive, applyBenefit,
      get_active_scheme_for_product_call, hs3, hgg, hu5, inp5b, loose,
      productToPData]
    try simp
    try norm_num [round2, round3, pyRound, Int.fract]

/-- C7: with the unknown uom box absent from the unit table the engine
keeps the previously known rate 50, but it does not go on to produce a
priced line: the matcher call raises TypeError (swallowed) and the
amount cell is never written; the arity-corrected run produces the line
amount 100. -/
theorem unknown_uom_fallback_incomplete :
    (recalc_row db7 inp7).rate_used = 50 ∧
    (recalc_row db7 inp7).crashed = true ∧
    (recalc_row db7 inp7).amount_cell = none ∧
    (recalc_row_patched db7 inp7).amount_cell = some 100 := by
  have hg : isGramUom "box" = false := by decide
  have hu : get_product_uom_data db7 1 "box" = none := by
    norm_num [get_product_uom_data, db7, widget, List.find?]
    all_goals exact fun h => absurd h (by decide)
  have hs : get_active_scheme_for_product db7 1 2 (some "box") = none := by
    norm_num [get_active_scheme_for_product, schemeSurvivors, schemeFilter,
      pickBestRule, ruleLt, db7, List.filterMap]
  norm_num [recalc_row, recalc_row_patched, recalc_row_with, uomRederive,
    applyBenefit, get_active_scheme_for_product_call, hs, hg, hu, inp7,
    widget, productToPData]
  norm_num [round2, pyRound, Int.fract]

/-- C9: the bill total is the Python round of the sum of the line-amount
cells, applied at bill level only (line amounts stay two-decimal values:
two 0.49 lines total to 1), and process_checkout likewise rounds once at
the end; but the only writer of the line-amount column is the dead tail
of recalc_row, so the faithful pricing pass leaves the cell empty and
the bill total at 0 where round2(660) = 660 is claimed — the
arity-corrected run produces 660 and a total of 660. -/
theorem rounding_pipeline_broken :
    (recalc_row db9 inp9).amount_cell = none ∧
    recalc_totals_total [(recalc_row db9 inp9).amount_cell] = 0 ∧
    (recalc_row_patched db9 inp9).amount_cell = some 660 ∧
    recalc_totals_total [some 660] = 660 ∧
    recalc_totals_total [some (49/100), some (49/100)] = 1 ∧
    process_checkout_total [(6, 110, 0, "kg")] = 660 := by
  have hg : isGramUom "kg" = false := by decide
  have hs : get_active_scheme_for_product db9 1 6 (some "kg") = none := by
    norm_num [get_active_scheme_for_product, schemeSurvivors, schemeFilter,
      pickBestRule, ruleLt, db9, List.filterMap]
  have hrow : (recalc_row db9 inp9).amount_cell = none := by
    norm_num [recalc_row, recalc_row_with, uomRederive,
      get_active_scheme_for_product_call, hg, inp9, rice, productToPData]
  refine ⟨hrow, ?_, ?_, ?_, ?_, ?_⟩
  · rw [hrow]; norm_num [recalc_totals_total, pyRound, Int.fract]
  · norm_num [recalc_row_patched, recalc_row_with, uomRederive, applyBenefit,
      get_active_scheme_for_product_call, hs, hg, inp9, rice, productToPData]
    norm_num [round2, pyRound, Int.fract]
  · norm_num [recalc_totals_total, pyRound, Int.fract]
  · norm_num [recalc_totals_total, pyRound, Int.fract]
  · norm_num [process_checkout_total, checkout_calc_rate, hg, pyRound,
      Int.fract]

end ElytPOS
